import Mathlib

/-!
Verification of the rsraft leader-election core.

The definitions below are a shallow embedding of src/src/raft/core.rs.
The Server record and its lifecycle methods live in the crate module
raft/types.rs, which is not part of the sources provided; those
definitions are modelled from the specification (sections 3 and 4.1) and
are marked as such in their doc comments.  Machine integers (u64 terms,
usize counters) are modelled as Nat: terms only ever move to a strictly
larger received value or increase by one, so wrap-around is unreachable
in the modelled executions.  Instants and Durations are modelled as Nat
time stamps passed explicitly to the operations that read the clock.
-/

namespace Rsraft

/-- Network endpoint, standing in for std::net::SocketAddrV4 (four IPv4
octets and a port). -/
structure SocketAddrV4 where
  ipA : Nat
  ipB : Nat
  ipC : Nat
  ipD : Nat
  port : Nat
deriving DecidableEq, Repr

/-- SocketAddrV4::new(Ipv4Addr::LOCALHOST, port). -/
def localhostAddr (port : Nat) : SocketAddrV4 :=
  ⟨127, 0, 0, 1, port⟩

/-- Role of a node, from raft/types.rs (FOLLOWER, CANDIDATE, LEADER). -/
inductive State
  | FOLLOWER
  | CANDIDATE
  | LEADER
deriving DecidableEq, Repr

/-- Peer record: id and address. -/
structure Peer where
  id : String
  address : SocketAddrV4
deriving DecidableEq, Repr

/-- Leader view: id of the acknowledged leader and the term it was
acknowledged at. -/
structure Leader where
  id : String
  term : Nat
deriving DecidableEq, Repr

/-- VoteRequest message: term and candidate id. -/
structure VoteRequest where
  term : Nat
  candidate_id : String
deriving DecidableEq, Repr

/-- VoteResponse message: term and whether the vote was granted. -/
structure VoteResponse where
  term : Nat
  vote_granted : Bool
deriving DecidableEq, Repr

/-- LogEntry tagged union; the election core only uses the Heartbeat
variant carrying a term and the sender id. -/
inductive LogEntry
  | heartbeat (term : Nat) (peer_id : String)
deriving DecidableEq, Repr

/-- Modelled from the spec: the Node State record of section 3 (the
Server struct of raft/types.rs, absent from the provided sources).
Field names follow the spec and the field accesses visible in core.rs.
next_timeout is an optional absolute deadline in model time; timeout is
the configured base interval. -/
structure Server where
  id : String
  address : SocketAddrV4
  state : State
  term : Nat
  voted_for : Option Peer
  current_leader : Option Leader
  number_of_peers : Nat
  next_timeout : Option Nat
  timeout : Nat
  started : Bool
deriving DecidableEq, Repr

/-- Modelled from the spec: Server::new (section 4.1) constructs an
inert node in FOLLOWER role at term 0 with no vote, no leader view and
no timeout. -/
def Server.new (timeout : Nat) (number_of_peers : Nat)
    (address : SocketAddrV4) (id : String) : Server :=
  { id := id
    address := address
    state := State.FOLLOWER
    term := 0
    voted_for := none
    current_leader := none
    number_of_peers := number_of_peers
    next_timeout := none
    timeout := timeout
    started := false }

/-- Modelled from the spec: Server::start (section 4.1) sets
started = true and next_timeout = now + timeout_duration. -/
def Server.start (s : Server) (now : Nat) : Server :=
  { s with started := true, next_timeout := some (now + s.timeout) }

/-- Modelled from the spec: Server::refresh_timeout (section 4.1) sets
next_timeout = now + timeout_duration. -/
def Server.refresh_timeout (s : Server) (now : Nat) : Server :=
  { s with next_timeout := some (now + s.timeout) }

/-- Modelled from the spec: Server::has_timed_out (section 4.1) is true
iff started, next_timeout is set and the current instant has reached it;
it returns false for a LEADER. -/
def Server.has_timed_out (s : Server) (now : Nat) : Bool :=
  !(s.state == State.LEADER) && s.started &&
    (match s.next_timeout with
     | some deadline => decide (deadline ≤ now)
     | none => false)

/-- Modelled from the spec: Server::become_leader (section 4.1) sets the
role to LEADER, clears next_timeout and records itself as
current_leader at its current term. -/
def Server.become_leader (s : Server) : Server :=
  { s with state := State.LEADER
           next_timeout := none
           current_leader := some ⟨s.id, s.term⟩ }

/-- handle_vote_request from core.rs: already voted means deny; a fresh
voter grants iff the request term is strictly above its own term,
recording the candidate (with the hard-coded placeholder address) as
voted_for.  The response echoes the request term in every case. -/
def handle_vote_request (s : Server) (request : VoteRequest) :
    Server × VoteResponse :=
  match s.voted_for with
  | some _ => (s, ⟨request.term, false⟩)
  | none =>
    if request.term > s.term then
      ({ s with voted_for := some ⟨request.candidate_id, localhostAddr 7879⟩ },
       ⟨request.term, true⟩)
    else
      (s, ⟨request.term, false⟩)

/-- handle_log_entry from core.rs: on a Heartbeat the timeout is
refreshed unconditionally; if the carried term is strictly above the
local term the node adopts it, becomes FOLLOWER, clears voted_for and
records the sender as current_leader.  The current term after these
updates is returned. -/
def handle_log_entry (s : Server) (entry : LogEntry) (now : Nat) :
    Server × Nat :=
  match entry with
  | LogEntry.heartbeat term peer_id =>
    let s1 := s.refresh_timeout now
    let s2 :=
      if term > s1.term then
        { s1 with term := term
                  state := State.FOLLOWER
                  voted_for := none
                  current_leader := some ⟨peer_id, term⟩ }
      else s1
    (s2, s2.term)

/-- prepare_vote_request from core.rs: a LEADER aborts; otherwise the
node becomes CANDIDATE, increments its term, refreshes its timeout,
votes for itself and emits the request carrying the new term and its
id. -/
def prepare_vote_request (s : Server) (now : Nat) :
    Server × Option VoteRequest :=
  if s.state == State.LEADER then
    (s, none)
  else
    let s1 := { s with state := State.CANDIDATE, term := s.term + 1 }
    let s2 := s1.refresh_timeout now
    let s3 := { s2 with voted_for := some ⟨s2.id, s2.address⟩ }
    (s3, some ⟨s3.term, s3.id⟩)

/-- has_won_the_election from core.rs.  min_quorum in the source is
round::floor((number_of_servers / 2) as f64, 0) where the division is
usize division; the floor of an integer-valued float is that integer,
so it is Nat division here. -/
def has_won_the_election (s : Server) (response : List VoteResponse) :
    Bool :=
  let number_of_servers := s.number_of_peers + 1
  let votes := (response.filter (fun r => r.vote_granted)).length
  let min_quorum := number_of_servers / 2
  decide (votes + 1 > min_quorum) && (s.state == State.CANDIDATE)

/-- new_election from core.rs, with the responses the transport
delivers and the two instants at which the clock is read (now0 when the
candidacy starts, now1 at the post-RPC tally) as parameters.  Returns
the final server state, the vote request issued (if any) and the list
of log entries broadcast (the victory heartbeat from become_leader, if
any). -/
def new_election (s : Server) (responses : List VoteResponse)
    (now0 now1 : Nat) : Server × Option VoteRequest × List LogEntry :=
  match prepare_vote_request s now0 with
  | (s1, none) => (s1, none, [])
  | (s1, some request) =>
    let own_election :=
      has_won_the_election s1 responses && !(s1.has_timed_out now1)
    if own_election then
      let s2 := s1.become_leader
      (s2, some request, [LogEntry.heartbeat s2.term s2.id])
    else
      (s1, some request, [])

/-!
Single-node traces: sequences of inbound handler invocations against one
node, recording each vote response the node produced together with the
term echoed in it.  Used to check per-node temporal properties such as
how many times a given term is granted.
-/

/-- One inbound event at a node: a vote request, or a log entry
delivered at the given model instant. -/
inductive NodeEvent
  | vote (request : VoteRequest)
  | log (entry : LogEntry) (now : Nat)
deriving DecidableEq, Repr

/-- Apply one inbound event through the corresponding core.rs handler;
vote events also yield the (term, vote_granted) pair of the response. -/
def stepNode (s : Server) (e : NodeEvent) : Server × Option (Nat × Bool) :=
  match e with
  | NodeEvent.vote request =>
    let out := handle_vote_request s request
    (out.1, some (out.2.term, out.2.vote_granted))
  | NodeEvent.log entry now =>
    ((handle_log_entry s entry now).1, none)

/-- Run a list of inbound events at a node, collecting the vote
responses in order. -/
def runNode : Server → List NodeEvent → Server × List (Nat × Bool)
  | s, [] => (s, [])
  | s, e :: es =>
    let out := stepNode s e
    let rest := runNode out.1 es
    (rest.1,
      match out.2 with
      | some p => p :: rest.2
      | none => rest.2)

/-- Number of vote responses in a trace that granted the vote for the
given term. -/
def grantsFor (t : Nat) (responses : List (Nat × Bool)) : Nat :=
  (responses.filter (fun p => (p.1 == t) && p.2)).length

/-!
Cluster traces: a fixed list of nodes plus a model clock, stepped by
whole-cluster events.  An election event models one pass of the
background driver at one node: the timeout check of handle_timeout, then
new_election where the vote request reaches exactly the listed responder
nodes (the transport is unreliable, so any subset of peers may respond)
and each responder answers through its own handle_vote_request handler;
the victory heartbeat, when produced, is delivered to the listed
receiver nodes.  A heartbeat event models one pass of
broadcast_heartbeat at a leader, delivered to the listed receiver nodes.
Events that violate a precondition of the modelled code path (the node
had not timed out, the sender of a periodic heartbeat is not leader, an
index is out of range, a node would respond to its own request, or the
clock would run backwards) make the trace invalid (none).
-/

/-- Cluster state: the servers, indexed by position, and the model
clock. -/
structure Cluster where
  servers : List Server
  clock : Nat
deriving DecidableEq, Repr

/-- One whole-cluster event. -/
inductive SysEvent
  | election (i : Nat) (responders : List Nat) (now0 now1 : Nat)
      (receivers : List Nat)
  | heartbeat (i : Nat) (receivers : List Nat) (now : Nat)
deriving DecidableEq, Repr

/-- Deliver one vote request to each responder in order, each through
its own handle_vote_request, collecting the responses. -/
def collectVotes (servers : List Server) (request : VoteRequest) :
    List Nat → Option (List Server × List VoteResponse)
  | [] => some (servers, [])
  | j :: js =>
    match servers.get? j with
    | none => none
    | some sj =>
      let out := handle_vote_request sj request
      match collectVotes (servers.set j out.1) request js with
      | none => none
      | some rest => some (rest.1, out.2 :: rest.2)

/-- Deliver one log entry to each receiver in order, each through its
own handle_log_entry at the given instant. -/
def deliverEntry (servers : List Server) (entry : LogEntry) (now : Nat) :
    List Nat → Option (List Server)
  | [] => some servers
  | j :: js =>
    match servers.get? j with
    | none => none
    | some sj =>
      deliverEntry (servers.set j (handle_log_entry sj entry now).1)
        entry now js

/-- Apply one cluster event, checking its preconditions. -/
def applySys (c : Cluster) (e : SysEvent) : Option Cluster :=
  match e with
  | SysEvent.election i responders now0 now1 receivers =>
    match c.servers.get? i with
    | none => none
    | some si =>
      if c.clock ≤ now0 && now0 ≤ now1 && !(responders.contains i)
          && si.has_timed_out now0 then
        match prepare_vote_request si now0 with
        | (s1, none) =>
          some ⟨c.servers.set i s1, now1⟩
        | (s1, some request) =>
          match collectVotes (c.servers.set i s1) request responders with
          | none => none
          | some (servers1, responses) =>
            if has_won_the_election s1 responses
                && !(s1.has_timed_out now1) then
              let s2 := s1.become_leader
              match deliverEntry (servers1.set i s2)
                  (LogEntry.heartbeat s2.term s2.id) now1 receivers with
              | none => none
              | some servers2 => some ⟨servers2, now1⟩
            else
              some ⟨servers1, now1⟩
      else none
  | SysEvent.heartbeat i receivers now =>
    match c.servers.get? i with
    | none => none
    | some si =>
      if c.clock ≤ now && (si.state == State.LEADER)
          && !(receivers.contains i) then
        match deliverEntry c.servers
            (LogEntry.heartbeat si.term si.id) now receivers with
        | none => none
        | some servers1 => some ⟨servers1, now⟩
      else none

/-- Run a list of cluster events. -/
def runSys : Cluster → List SysEvent → Option Cluster
  | c, [] => some c
  | c, e :: es =>
    match applySys c e with
    | none => none
    | some c1 => runSys c1 es

/-- Number of servers in the cluster that hold role LEADER at the given
term. -/
def leadersAt (t : Nat) (c : Cluster) : Nat :=
  (c.servers.filter
    (fun s => (s.state == State.LEADER) && (s.term == t))).length

/-!
Shared helper lemmas.
-/

lemma prepare_vote_request_eq (s : Server) (now : Nat)
    (h : s.state ≠ State.LEADER) :
    prepare_vote_request s now =
      ({ s with state := State.CANDIDATE
                term := s.term + 1
                next_timeout := some (now + s.timeout)
                voted_for := some ⟨s.id, s.address⟩ },
       some ⟨s.term + 1, s.id⟩) := by
  simp [prepare_vote_request, Server.refresh_timeout, h]

lemma become_leader_term (s : Server) : s.become_leader.term = s.term :=
  rfl

lemma prepare_vote_request_term_le (s : Server) (now : Nat) :
    s.term ≤ (prepare_vote_request s now).1.term := by
  unfold prepare_vote_request
  split
  · exact Nat.le_refl _
  · simp [Server.refresh_timeout]

lemma new_election_term_eq (s : Server) (rs : List VoteResponse)
    (now0 now1 : Nat) :
    (new_election s rs now0 now1).1.term =
      (prepare_vote_request s now0).1.term := by
  unfold new_election
  cases hp : prepare_vote_request s now0 with
  | mk s1 ropt =>
    cases ropt with
    | none => rfl
    | some request =>
      by_cases hc :
          (has_won_the_election s1 rs && !(s1.has_timed_out now1)) = true
      · simp [hc, Server.become_leader]
      · simp [hc]

/-!
Concrete inputs used by the claim theorems, their witnesses and
counterexamples.
-/

def c1Server : Server := Server.new 10 4 (localhostAddr 9090) "n1"

def c1Trace : List NodeEvent :=
  [ NodeEvent.vote ⟨5, "B"⟩,
    NodeEvent.log (LogEntry.heartbeat 3 "C") 0,
    NodeEvent.vote ⟨5, "D"⟩ ]

def c2Server : Server := Server.new 10 2 (localhostAddr 9090) "n1"

def c3Server : Server :=
  { Server.new 10 2 (localhostAddr 9090) "n1" with state := State.CANDIDATE }

def c4Server : Server := Server.new 10 2 (localhostAddr 9090) "n1"

def c5Server : Server := (Server.new 10 2 (localhostAddr 9090) "n1").start 0

def c6Server : Server := Server.new 10 2 (localhostAddr 9090) "n1"

def c8Server : Server :=
  { Server.new 10 2 (localhostAddr 9090) "n1" with
      state := State.LEADER, term := 10 }

def c10Server : Server :=
  { Server.new 10 2 (localhostAddr 9090) "n1" with
      voted_for := some ⟨"B", localhostAddr 7879⟩ }

def mkNode (id : String) (port : Nat) : Server :=
  (Server.new 10 4 (localhostAddr port) id).start 0

def c9Init : Cluster :=
  ⟨[mkNode "a" 3300, mkNode "b" 3301, mkNode "c" 3302,
    mkNode "e" 3303, mkNode "g" 3304], 0⟩

def c9Trace : List SysEvent :=
  [ SysEvent.election 4 [] 10 10 [],
    SysEvent.election 4 [0, 1] 20 20 [],
    SysEvent.election 0 [] 30 30 [],
    SysEvent.election 0 [] 40 40 [],
    SysEvent.election 0 [] 50 50 [],
    SysEvent.election 0 [] 60 60 [],
    SysEvent.election 0 [2, 3] 70 70 [],
    SysEvent.heartbeat 4 [2, 3] 80,
    SysEvent.election 1 [] 90 90 [],
    SysEvent.election 1 [] 100 100 [],
    SysEvent.election 1 [] 110 110 [],
    SysEvent.election 1 [] 120 120 [],
    SysEvent.election 1 [2, 3] 130 130 [] ]

/-!
Claim theorems.
-/

/-- Claim C1: the claim that a node grants vote_granted = true for a
given term at most once across any sequence of handle_vote_request and
handle_log_entry calls from a fresh node is violated by the code: on
the concrete trace c1Trace (grant for term 5, heartbeat at term 3 which
clears voted_for without reaching term 5, second request for term 5)
the fresh node c1Server grants term 5 twice, because
handle_vote_request never adopts the granted term. -/
theorem C1_double_grant_trace :
    grantsFor 5 (runNode c1Server c1Trace).2 = 2 := by decide

/-- Claim C2 counterexample: the claim quantifies over both inbound
message kinds, but handle_vote_request on a request with term 5
strictly above the current term 0 neither adopts term 5 nor leaves
voted_for cleared. -/
theorem C2_counterexample :
    5 > c2Server.term ∧
    ¬((handle_vote_request c2Server ⟨5, "B"⟩).1.term = 5 ∧
      (handle_vote_request c2Server ⟨5, "B"⟩).1.voted_for = none) := by
  decide

/-- Claim C2, amended: restricted to heartbeat log entries, a message
carrying a term strictly greater than the current term makes the node
adopt that term, take role FOLLOWER and clear voted_for. -/
theorem C2_heartbeat_higher_term (s : Server) (t : Nat) (pid : String)
    (now : Nat) (h : t > s.term) :
    (handle_log_entry s (LogEntry.heartbeat t pid) now).1.term = t ∧
    (handle_log_entry s (LogEntry.heartbeat t pid) now).1.state =
      State.FOLLOWER ∧
    (handle_log_entry s (LogEntry.heartbeat t pid) now).1.voted_for =
      none := by
  simp [handle_log_entry, Server.refresh_timeout, h]

/-- Witness for the amended claim C2 at a concrete input. -/
theorem C2_heartbeat_higher_term_witness :
    (handle_log_entry c2Server (LogEntry.heartbeat 7 "C") 3).1.term = 7 ∧
    (handle_log_entry c2Server (LogEntry.heartbeat 7 "C") 3).1.state =
      State.FOLLOWER ∧
    (handle_log_entry c2Server (LogEntry.heartbeat 7 "C") 3).1.voted_for =
      none :=
  C2_heartbeat_higher_term c2Server 7 "C" 3 (by decide)

/-- Claim C3: the tally counts the granted responses plus the self
vote, winning requires strictly more than half of peer_count + 1
servers while the role is CANDIDATE, equality with the threshold is not
a win, and the two boundary cases from the specification hold. -/
theorem C3_tally :
    (∀ (s : Server) (rs : List VoteResponse),
      has_won_the_election s rs = true ↔
        ((rs.filter (fun r => r.vote_granted)).length + 1 >
            (s.number_of_peers + 1) / 2 ∧
          s.state = State.CANDIDATE)) ∧
    (∀ (s : Server) (rs : List VoteResponse),
      (rs.filter (fun r => r.vote_granted)).length + 1 =
          (s.number_of_peers + 1) / 2 →
        has_won_the_election s rs = false) ∧
    (∀ (s : Server) (rs : List VoteResponse),
      s.number_of_peers = 2 → s.state = State.CANDIDATE →
        (rs.filter (fun r => r.vote_granted)).length = 1 →
        has_won_the_election s rs = true) ∧
    (∀ (s : Server) (rs : List VoteResponse),
      s.number_of_peers = 4 → s.state = State.CANDIDATE →
        (rs.filter (fun r => r.vote_granted)).length = 2 →
        has_won_the_election s rs = true) := by
  refine ⟨?_, ?_, ?_, ?_⟩
  · intro s rs
    simp [has_won_the_election]
  · intro s rs h
    simp [has_won_the_election, h]
  · intro s rs hp hst hlen
    simp [has_won_the_election, hp, hst, hlen]
  · intro s rs hp hst hlen
    simp [has_won_the_election, hp, hst, hlen]

/-- Witness for claim C3 at a concrete input: with peer_count = 2 one
granted peer response plus the self vote wins. -/
theorem C3_tally_witness :
    has_won_the_election c3Server [⟨1, true⟩] = true :=
  C3_tally.2.2.1 c3Server [⟨1, true⟩] rfl rfl rfl

/-- Claim C4: handle_vote_request echoes the request term in every
response, grants exactly when voted_for is none and the request term
exceeds the current term (recording the candidate as voted_for), and
denies without touching the state otherwise. -/
theorem C4_vote_request_cases (s : Server) (request : VoteRequest) :
    (handle_vote_request s request).2.term = request.term ∧
    ((handle_vote_request s request).2.vote_granted = true ↔
      (s.voted_for = none ∧ request.term > s.term)) ∧
    (s.voted_for ≠ none →
      handle_vote_request s request = (s, ⟨request.term, false⟩)) ∧
    (s.voted_for = none → request.term ≤ s.term →
      handle_vote_request s request = (s, ⟨request.term, false⟩)) ∧
    (s.voted_for = none → request.term > s.term →
      (handle_vote_request s request).1.voted_for =
          some ⟨request.candidate_id, localhostAddr 7879⟩ ∧
        (handle_vote_request s request).2 = ⟨request.term, true⟩) := by
  rcases hv : s.voted_for with _ | p
  · by_cases hlt : request.term > s.term <;>
      simp [handle_vote_request, hv, hlt]
  · simp [handle_vote_request, hv]

/-- Witness for claim C4 at a concrete input: a fresh node grants a
term-1 request and records the candidate. -/
theorem C4_vote_request_cases_witness :
    (handle_vote_request c4Server ⟨1, "B"⟩).1.voted_for =
        some ⟨"B", localhostAddr 7879⟩ ∧
      (handle_vote_request c4Server ⟨1, "B"⟩).2 = ⟨1, true⟩ :=
  (C4_vote_request_cases c4Server ⟨1, "B"⟩).2.2.2.2 rfl (by decide)

/-- Claim C5: on a node that is not LEADER the election driver starts a
candidacy (CANDIDATE, term + 1, refreshed timeout, self vote, request
carrying the new term), promotes to leader with one victory heartbeat
exactly when the tally wins and the node has not timed out again, and
otherwise leaves the node CANDIDATE at the incremented term with no
broadcast. -/
theorem C5_election_driver (s : Server) (rs : List VoteResponse)
    (now0 now1 : Nat) (h : s.state ≠ State.LEADER) :
    ((prepare_vote_request s now0).1.state = State.CANDIDATE ∧
      (prepare_vote_request s now0).1.term = s.term + 1 ∧
      (prepare_vote_request s now0).1.next_timeout =
        some (now0 + s.timeout) ∧
      (prepare_vote_request s now0).1.voted_for = some ⟨s.id, s.address⟩ ∧
      (prepare_vote_request s now0).2 = some ⟨s.term + 1, s.id⟩) ∧
    ((new_election s rs now0 now1).1.state = State.LEADER ↔
      (has_won_the_election (prepare_vote_request s now0).1 rs = true ∧
        (prepare_vote_request s now0).1.has_timed_out now1 = false)) ∧
    (has_won_the_election (prepare_vote_request s now0).1 rs = true →
      (prepare_vote_request s now0).1.has_timed_out now1 = false →
      (new_election s rs now0 now1).1 =
          (prepare_vote_request s now0).1.become_leader ∧
        (new_election s rs now0 now1).2.2 =
          [LogEntry.heartbeat (s.term + 1) s.id]) ∧
    (¬(has_won_the_election (prepare_vote_request s now0).1 rs = true ∧
        (prepare_vote_request s now0).1.has_timed_out now1 = false) →
      (new_election s rs now0 now1).1 = (prepare_vote_request s now0).1 ∧
        (new_election s rs now0 now1).1.state = State.CANDIDATE ∧
        (new_election s rs now0 now1).1.term = s.term + 1 ∧
        (new_election s rs now0 now1).2.2 = []) := by
  rw [new_election, prepare_vote_request_eq s now0 h]
  by_cases hw :
      has_won_the_election (prepare_vote_request s now0).1 rs = true <;>
    by_cases ht :
      (prepare_vote_request s now0).1.has_timed_out now1 = false <;>
    rw [prepare_vote_request_eq s now0 h] at hw ht <;>
    simp [prepare_vote_request_eq s now0 h, hw, ht,
      Server.become_leader]

/-- Witness for claim C5 at a concrete input: a started fresh node with
two peers and two granted responses is promoted to LEADER at term 1. -/
theorem C5_election_driver_witness :
    (new_election c5Server [⟨1, true⟩, ⟨1, true⟩] 10 10).1.state =
      State.LEADER := by
  have h := C5_election_driver c5Server [⟨1, true⟩, ⟨1, true⟩] 10 10
    (by decide)
  exact h.2.1.mpr (by decide)

/-- Claim C6: handle_log_entry on a heartbeat refreshes the timeout
unconditionally, adopts the carried term (with FOLLOWER role, cleared
vote and new leader view) exactly when it exceeds the current term, and
returns the term as it stands after these updates. -/
theorem C6_heartbeat_handler (s : Server) (t : Nat) (pid : String)
    (now : Nat) :
    (handle_log_entry s (LogEntry.heartbeat t pid) now).1.next_timeout =
        some (now + s.timeout) ∧
    (handle_log_entry s (LogEntry.heartbeat t pid) now).2 =
      (handle_log_entry s (LogEntry.heartbeat t pid) now).1.term ∧
    (t > s.term →
      (handle_log_entry s (LogEntry.heartbeat t pid) now).1 =
          { s with term := t
                   state := State.FOLLOWER
                   voted_for := none
                   current_leader := some ⟨pid, t⟩
                   next_timeout := some (now + s.timeout) } ∧
        (handle_log_entry s (LogEntry.heartbeat t pid) now).2 = t) ∧
    (¬ t > s.term →
      (handle_log_entry s (LogEntry.heartbeat t pid) now).1 =
          s.refresh_timeout now ∧
        (handle_log_entry s (LogEntry.heartbeat t pid) now).2 = s.term) := by
  by_cases hlt : t > s.term <;>
    simp [handle_log_entry, Server.refresh_timeout, hlt]

/-- Witness for claim C6 at a concrete input: a stale heartbeat (term 0
against current term 0) still refreshes the timeout and changes nothing
else. -/
theorem C6_heartbeat_handler_witness :
    (handle_log_entry c6Server (LogEntry.heartbeat 0 "C") 3).1 =
        c6Server.refresh_timeout 3 ∧
      (handle_log_entry c6Server (LogEntry.heartbeat 0 "C") 3).2 =
        c6Server.term :=
  (C6_heartbeat_handler c6Server 0 "C" 3).2.2.2 (by decide)

/-- Claim C7: none of the three operations (vote handler, log entry
handler, election driver) ever decreases the term of the node. -/
theorem C7_term_monotone (s : Server) (request : VoteRequest)
    (entry : LogEntry) (rs : List VoteResponse) (now now0 now1 : Nat) :
    s.term ≤ (handle_vote_request s request).1.term ∧
    s.term ≤ (handle_log_entry s entry now).1.term ∧
    s.term ≤ (new_election s rs now0 now1).1.term := by
  refine ⟨?_, ?_, ?_⟩
  · rcases hv : s.voted_for with _ | p
    · simp only [handle_vote_request, hv]
      split <;> simp
    · simp [handle_vote_request, hv]
  · cases entry with
    | heartbeat t pid =>
      by_cases hlt : t > s.term
      · simp [handle_log_entry, Server.refresh_timeout, hlt]
        omega
      · simp [handle_log_entry, Server.refresh_timeout, hlt]
  · rw [new_election_term_eq]
    exact prepare_vote_request_term_le s now0

/-- Claim C8: triggering the election driver on a LEADER leaves the
whole state (in particular role and term) unchanged, issues no vote
request and broadcasts nothing, whatever the responses would have
been. -/
theorem C8_leader_frame (s : Server) (rs : List VoteResponse)
    (now0 now1 : Nat) (h : s.state = State.LEADER) :
    (new_election s rs now0 now1).1 = s ∧
    (new_election s rs now0 now1).1.state = State.LEADER ∧
    (new_election s rs now0 now1).1.term = s.term ∧
    (new_election s rs now0 now1).2.1 = none ∧
    (new_election s rs now0 now1).2.2 = [] := by
  unfold new_election prepare_vote_request
  simp [h]

/-- Witness for claim C8 at a concrete input: a LEADER at term 10 with
two granted responses stays LEADER at term 10 and issues nothing. -/
theorem C8_leader_frame_witness :
    (new_election c8Server [⟨11, true⟩, ⟨11, true⟩] 0 0).1 = c8Server ∧
    (new_election c8Server [⟨11, true⟩, ⟨11, true⟩] 0 0).1.state =
      State.LEADER ∧
    (new_election c8Server [⟨11, true⟩, ⟨11, true⟩] 0 0).1.term =
      c8Server.term ∧
    (new_election c8Server [⟨11, true⟩, ⟨11, true⟩] 0 0).2.1 = none ∧
    (new_election c8Server [⟨11, true⟩, ⟨11, true⟩] 0 0).2.2 = [] :=
  C8_leader_frame c8Server [⟨11, true⟩, ⟨11, true⟩] 0 0 rfl

/-- Claim C9: the claim that at most one node holds role LEADER at any
given term is violated by the code: the valid cluster trace c9Trace
over five fresh nodes (every event passes the modelled preconditions:
each election fires only on a timed-out node, responses come from the
responder nodes through their own vote handlers, heartbeats come from
an actual leader, and the transport may drop any message) ends with two
distinct nodes both holding role LEADER at term 5, an effect of the
double grant of C1. -/
theorem C9_two_leaders_trace :
    (runSys c9Init c9Trace).map (leadersAt 5) = some 2 := by decide

/-- Claim C10: a denied vote request (already voted, or stale request
term) leaves every field of the node state unchanged. -/
theorem C10_deny_frame (s : Server) (request : VoteRequest)
    (h : s.voted_for ≠ none ∨
      (s.voted_for = none ∧ request.term ≤ s.term)) :
    (handle_vote_request s request).1.term = s.term ∧
    (handle_vote_request s request).1.state = s.state ∧
    (handle_vote_request s request).1.voted_for = s.voted_for ∧
    (handle_vote_request s request).1.current_leader =
      s.current_leader ∧
    (handle_vote_request s request).1.next_timeout = s.next_timeout ∧
    (handle_vote_request s request).1.started = s.started := by
  have hfix : (handle_vote_request s request).1 = s := by
    rcases h with h | ⟨h1, h2⟩
    · rcases hv : s.voted_for with _ | p
      · exact absurd hv h
      · simp [handle_vote_request, hv]
    · have h3 : ¬ request.term > s.term := Nat.not_lt.mpr h2
      simp [handle_vote_request, h1, h3]
  simp [hfix]

/-- Witness for claim C10 at a concrete input: a node that already
voted denies and keeps every field. -/
theorem C10_deny_frame_witness :
    (handle_vote_request c10Server ⟨5, "D"⟩).1.term = c10Server.term ∧
    (handle_vote_request c10Server ⟨5, "D"⟩).1.state = c10Server.state ∧
    (handle_vote_request c10Server ⟨5, "D"⟩).1.voted_for =
      c10Server.voted_for ∧
    (handle_vote_request c10Server ⟨5, "D"⟩).1.current_leader =
      c10Server.current_leader ∧
    (handle_vote_request c10Server ⟨5, "D"⟩).1.next_timeout =
      c10Server.next_timeout ∧
    (handle_vote_request c10Server ⟨5, "D"⟩).1.started =
      c10Server.started :=
  C10_deny_frame c10Server ⟨5, "D"⟩ (Or.inl (by decide))

end Rsraft
